import Mathlib

/-!
Verification development for the hotel-search caching and fallback core of the
travelsite backend.  The definitions below are a shallow embedding of:
  * `src/models/hotelSearchCache.js` (search-result cache),
  * `src/models/Hotel.js` (hotel directory: popularity score, alternatives),
  * `src/services/hotelService.js` (search/verification orchestrator).
JavaScript `Date` values are embedded as integer epoch milliseconds; JS numbers
appearing in scores and ratings are embedded as rationals; fallible async calls
are embedded as `Except String` outcomes threaded through an environment record.
-/

namespace TravelHotel

attribute [local semireducible] Rat.add Rat.sub Rat.mul Rat.inv

/-! ## JavaScript-value helpers

JS truthiness as used by the source (`x || y`, `if (x)`): `null`/`undefined`
(embedded as `none`), the number `0` and the empty string are falsy; arrays are
always truthy (even `[]`). -/

/-- Truthiness of an optional JS number (`none` = absent/null, `0` is falsy). -/
def optTruthyQ : Option ℚ → Bool
  | some x => decide (x ≠ 0)
  | none => false

/-- Truthiness of an optional JS string (`none` = absent/null, `""` is falsy). -/
def optTruthyStr : Option String → Bool
  | some s => decide (s ≠ "")
  | none => false

/-- JS `a || b` on optional numbers: first truthy operand, else `b`. -/
def orNum (a b : Option ℚ) : Option ℚ :=
  match a with
  | some x => if x = 0 then b else some x
  | none => b

/-- JS `a || b` on optional strings: first truthy operand, else `b`. -/
def orStr (a b : Option String) : Option String :=
  match a with
  | some s => if s = "" then b else some s
  | none => b

/-- JS `a || d` producing a plain string (`d` is a truthy literal default). -/
def orStrD (a : Option String) (d : String) : String :=
  match a with
  | some s => if s = "" then d else s
  | none => d

/-- JS `n || d` on an optional count (`0` and absent both fall back to `d`). -/
def jsOrNat (a : Option Nat) (d : Nat) : Nat :=
  match a with
  | some n => if n = 0 then d else n
  | none => d

/-- JS `s.toLowerCase()` (ASCII range, which is all the source relies on),
defined over the character list so that proofs can evaluate it. -/
def jsToLower (s : String) : String := String.mk (s.toList.map Char.toLower)

/-- JS `Math.abs`, in a form the kernel can evaluate on rational literals. -/
def jsAbs (q : ℚ) : ℚ := if q < 0 then -q else q

/-- `jsAbs` agrees with the mathematical absolute value. -/
theorem jsAbs_eq_abs (q : ℚ) : jsAbs q = |q| := by
  unfold jsAbs
  split
  · rw [abs_of_neg]
    assumption
  · rw [abs_of_nonneg]
    linarith [not_lt.mp (by assumption : ¬ q < 0)]

/-- Characters matched by the JS regex class `\s` (the ones relevant here). -/
def isJsSpace (c : Char) : Bool :=
  c = ' ' || c = '\t' || c = '\n' || c = '\r' || c = '\x0b' || c = '\x0c'

/-- Core of `String.prototype.replace(/\s+/g, "-")`: each maximal run of
whitespace becomes a single `'-'`.  The boolean records whether the previous
character belonged to a whitespace run. -/
def collapseWsAux : List Char → Bool → List Char
  | [], _ => []
  | c :: rest, prevSpace =>
    if isJsSpace c then
      (if prevSpace then [] else ['-']) ++ collapseWsAux rest true
    else
      c :: collapseWsAux rest false

/-- `s.replace(/\s+/g, "-")`. -/
def collapseWs (s : String) : String :=
  String.mk (collapseWsAux s.toList false)

/-- `needle.isPrefixOf hay`-based substring test: JS `hay.includes(needle)`. -/
def hasSub (needle : List Char) : List Char → Bool
  | [] => needle.isEmpty
  | c :: rest => needle.isPrefixOf (c :: rest) || hasSub needle rest

/-- JS `s.includes(sub)`. -/
def jsIncludes (s sub : String) : Bool :=
  hasSub sub.toList s.toList

/-- `new RegExp(pat, "i").test(s)` for a pattern with no metacharacters:
case-insensitive substring test (the source interpolates a location string). -/
def regexTest (pat s : String) : Bool :=
  jsIncludes (jsToLower s) (jsToLower pat)

/-- Milliseconds in a day. -/
def msPerDay : Int := 86400000

/-- Milliseconds in an hour. -/
def msPerHour : Int := 3600000

/-- The UTC calendar day of an epoch-millisecond timestamp. -/
def epochDay (t : Int) : Int := Int.fdiv t msPerDay

/-- `new Date(t).toISOString().split("T")[0]`, embedded as the decimal UTC day
number: like the `YYYY-MM-DD` string, it is equal for two timestamps exactly
when they fall on the same UTC calendar day. -/
def isoDayString (t : Int) : String := toString (epochDay t)

/-- `setHours(0,0,0,0)` on the current time: start of the current day.
(The source uses the server-local day; the embedding fixes the zone to UTC.) -/
def startOfDay (t : Int) : Int := msPerDay * epochDay t

/-! ## External inventory normalization (`hotelService.formatHotelResults`)

The TSS response shape is heterogeneous; each inbound record may carry either
member of several field pairs (`id`/`hotelId`, `name`/`hotelName`, ...). -/

/-- The nested `price` object of an inbound TSS hotel record. -/
structure RawPrice where
  total : Option ℚ
  currency : Option String
  perNight : Option ℚ
deriving DecidableEq

/-- An inbound TSS hotel record, with every field optional as in JSON. -/
structure RawHotel where
  id : Option String
  hotelId : Option String
  name : Option String
  hotelName : Option String
  address : Option String
  city : Option String
  country : Option String
  latitude : Option ℚ
  longitude : Option ℚ
  starRating : Option ℚ
  category : Option ℚ
  reviewScore : Option ℚ
  rating : Option ℚ
  reviewCount : Option ℚ
  numberOfReviews : Option ℚ
  price : Option RawPrice
  totalPrice : Option ℚ
  pricePerNight : Option ℚ
  amenities : Option (List String)
  facilities : Option (List String)
  images : Option (List String)
  photos : Option (List String)
  description : Option String
  hotelDescription : Option String
  distance : Option ℚ
  availability : Option String
deriving DecidableEq

/-- The canonical hotel record produced by the service's formatting helpers. -/
structure FormattedHotel where
  id : Option String
  name : Option String
  address : Option String
  city : Option String
  country : Option String
  latitude : Option ℚ
  longitude : Option ℚ
  starRating : Option ℚ
  reviewScore : Option ℚ
  reviewCount : Option ℚ
  priceAmount : Option ℚ
  priceCurrency : String
  pricePerNight : Option ℚ
  amenities : List String
  images : List String
  description : Option String
  distance : Option ℚ
  availability : Option String
deriving DecidableEq

/-- `hotel.price?.total` (optional chaining). -/
def rawPriceTotal (h : RawHotel) : Option ℚ := h.price.bind RawPrice.total

/-- `hotel.price?.currency`. -/
def rawPriceCurrency (h : RawHotel) : Option String := h.price.bind RawPrice.currency

/-- `hotel.price?.perNight`. -/
def rawPricePerNight (h : RawHotel) : Option ℚ := h.price.bind RawPrice.perNight

/-- One element of `HotelService.formatHotelResults`: field coalescing with
JS `||` (first truthy operand), arrays defaulting to `[]` (an array is always
truthy, so an explicitly empty inbound array is kept). -/
def formatHotelResult (h : RawHotel) : FormattedHotel where
  id := orStr h.id h.hotelId
  name := orStr h.name h.hotelName
  address := h.address
  city := h.city
  country := h.country
  latitude := h.latitude
  longitude := h.longitude
  starRating := orNum h.starRating h.category
  reviewScore := orNum h.reviewScore h.rating
  reviewCount := orNum h.reviewCount h.numberOfReviews
  priceAmount := orNum (rawPriceTotal h) h.totalPrice
  priceCurrency := orStrD (rawPriceCurrency h) ("EUR")
  pricePerNight := orNum (rawPricePerNight h) h.pricePerNight
  amenities := ((h.amenities).orElse (fun _ => h.facilities)).getD []
  images := ((h.images).orElse (fun _ => h.photos)).getD []
  description := orStr h.description h.hotelDescription
  distance := h.distance
  availability := some (orStrD h.availability ("available"))

/-- `HotelService.formatHotelResults`. -/
def formatHotelResults (hotels : List RawHotel) : List FormattedHotel :=
  hotels.map formatHotelResult

/-! ## Search-result cache (`hotelSearchCache.js`) -/

/-- `searchParams.additionalFilters`. -/
structure SearchFilters where
  minRating : Option ℚ
  maxPrice : Option ℚ
  hotelChain : Option String
deriving DecidableEq

/-- The search parameters keying a cache entry (dates in epoch milliseconds). -/
structure SearchParams where
  location : String
  checkIn : Int
  checkOut : Int
  rooms : Option Nat
  guests : Option Nat
  additionalFilters : Option SearchFilters
deriving DecidableEq

/-- `HotelSearchCache.generateSearchKey`: location lower-cased with whitespace
runs collapsed to `-`, dates truncated to the UTC day, `r`/`g` counts with the
JS `|| 1` default, optional filter components appended when truthy, all joined
with `_`. -/
def generateSearchKey (p : SearchParams) : String :=
  let base := [collapseWs (jsToLower p.location),
    isoDayString p.checkIn,
    isoDayString p.checkOut,
    "r" ++ toString (jsOrNat p.rooms 1),
    "g" ++ toString (jsOrNat p.guests 1)]
  let fparts :=
    match p.additionalFilters with
    | none => []
    | some f =>
      (match f.minRating with
        | some r => if r ≠ 0 then ["minr" ++ toString r] else []
        | none => []) ++
      (match f.maxPrice with
        | some m => if m ≠ 0 then ["maxp" ++ toString m] else []
        | none => []) ++
      (match f.hotelChain with
        | some c => if c ≠ "" then ["chain" ++ jsToLower c] else []
        | none => [])
  String.intercalate ("_") (base ++ fparts)

/-- The `results` subdocument of a cache entry. -/
structure CacheResults where
  hotels : List FormattedHotel
  totalResults : Nat
deriving DecidableEq

/-- The `status` enum of a cache entry. -/
inductive CacheStatus where
  | active
  | expired
  | invalid
deriving DecidableEq

/-- One stored `HotelSearchCache` document (the fields the core reads). -/
structure CacheEntry where
  searchKey : String
  searchParams : SearchParams
  results : CacheResults
  expiresAt : Int
  isExpired : Bool
  status : CacheStatus
  hitCount : Nat
  lastAccessed : Int
deriving DecidableEq

/-- The cache collection: a list of documents (`searchKey` is unique). -/
abbrev CacheStore := List CacheEntry

/-- The `pre('save')` middleware: a document whose requested check-out date is
strictly before the start of the current day is marked expired.  This hook runs
only on `save()` (Mongoose document middleware), i.e. on `recordHit`. -/
def preSaveHook (now : Int) (e : CacheEntry) : CacheEntry :=
  if e.searchParams.checkOut < startOfDay now then
    { e with status := CacheStatus.expired, isExpired := true }
  else e

/-- `HotelSearchCache.findValidCache`: the entry for the generated key, only if
active, not flagged expired, and with `expiresAt` strictly in the future. -/
def findValidCache (now : Int) (store : CacheStore) (p : SearchParams) : Option CacheEntry :=
  let key := generateSearchKey p
  store.find? fun e =>
    decide (e.searchKey = key) && decide (e.status = CacheStatus.active) &&
      !e.isExpired && decide (now < e.expiresAt)

/-- The document written by `createOrUpdateCache` when it replaces the entry
previously stored as `old` (`none` for a fresh insert): `findOneAndUpdate` with
upsert sets the fields, resets the flags, and increments the hit counter.
Being a query-level update, it does *not* run the `pre('save')` document
middleware, so `preSaveHook` is deliberately absent here. -/
def cacheWrittenEntry (now : Int) (p : SearchParams) (res : CacheResults)
    (ttlHours : Int) (old : Option CacheEntry) : CacheEntry where
  searchKey := generateSearchKey p
  searchParams := p
  results := res
  expiresAt := now + ttlHours * msPerHour
  isExpired := false
  status := CacheStatus.active
  hitCount := (match old with | some e => e.hitCount | none => 0) + 1
  lastAccessed := now

/-- `HotelSearchCache.createOrUpdateCache`: upsert by `searchKey`. -/
def createOrUpdateCache (now : Int) (store : CacheStore) (p : SearchParams)
    (res : CacheResults) (ttlHours : Int) : CacheStore :=
  let key := generateSearchKey p
  if store.any (fun e => e.searchKey == key) then
    store.map fun e =>
      if e.searchKey == key then cacheWrittenEntry now p res ttlHours (some e) else e
  else
    store ++ [cacheWrittenEntry now p res ttlHours none]

/-- `recordHit`: bump the counters then `save()`, which runs the hook. -/
def recordHit (now : Int) (e : CacheEntry) : CacheEntry :=
  preSaveHook now { e with hitCount := e.hitCount + 1, lastAccessed := now }

/-- `cleanupExpired`: drop entries past expiry or already flagged. -/
def cleanupExpired (now : Int) (store : CacheStore) : CacheStore :=
  store.filter fun e =>
    !(decide (e.expiresAt < now) || decide (e.status = CacheStatus.expired) || e.isExpired)

/-! ## Hotel directory (`Hotel.js`) -/

/-- A stored `Hotel` document (the fields the core reads).  `hid` stands for
the Mongo `_id`; `hotelId` is the external identifier.  Numeric schema fields
are optional (`starRating` 1-5, `reviewScore` 0-10, `reviewCount` >= 0).
`verificationHistory` keeps only each record's `verified` flag. -/
structure DirHotel where
  hid : Nat
  hotelId : String
  name : String
  address : String
  city : String
  country : String
  status : String
  availability : String
  starRating : Option ℚ
  reviewScore : Option ℚ
  reviewCount : Option ℚ
  priceMin : Option ℚ
  priceMax : Option ℚ
  verificationHistory : List Bool
  isFeatured : Bool
deriving DecidableEq

/-- Success rate over the verification history (`verified` entries / total).
On an empty history the quotient is `0/0 = 0`, matching the guarded source. -/
def successRate (l : List Bool) : ℚ :=
  ((l.filter id).length : ℚ) / (l.length : ℚ)

/-- JS `Math.round` on a non-negative value: round half up. -/
def jsRound (q : ℚ) : ℤ := ⌊q + 1/2⌋

/-- The un-rounded sum of `calculatePopularityScore`: each term guarded by the
source's truthiness test on the corresponding field. -/
def popScoreRaw (h : DirHotel) : ℚ :=
  (if optTruthyQ h.starRating then (h.starRating.getD 0 / 5) * 25 else 0) +
  (if optTruthyQ h.reviewScore then (h.reviewScore.getD 0 / 10) * 30 else 0) +
  (if optTruthyQ h.reviewCount then min ((h.reviewCount.getD 0 / 1000) * 20) 20 else 0) +
  (if h.verificationHistory.length > 0 then successRate h.verificationHistory * 15 else 0) +
  (if h.isFeatured then 10 else 0)

/-- `hotelSchema.methods.calculatePopularityScore`:
`Math.round(Math.min(score, 100))`. -/
def calculatePopularityScore (h : DirHotel) : ℤ :=
  jsRound (min (popScoreRaw h) 100)

/-- Stable insertion into a list ordered by `le` (existing ties stay first). -/
def insertSorted (le : α → α → Bool) (x : α) : List α → List α
  | [] => [x]
  | y :: ys => if le y x then y :: insertSorted le x ys else x :: y :: ys

/-- Stable insertion sort by `le`; stands in for the (stable) Mongo sort and
`Array.prototype.sort`.  Only membership and length matter to the claims. -/
def sortStable (le : α → α → Bool) : List α → List α
  | [] => []
  | x :: xs => insertSorted le x (sortStable le xs)

/-- Descending Mongo sort key order for alternatives:
`starRating: -1, reviewScore: -1, popularityScore: -1` (missing fields as 0). -/
def dirAltLe (a b : DirHotel) : Bool :=
  let sa := a.starRating.getD 0
  let sb := b.starRating.getD 0
  let ra := a.reviewScore.getD 0
  let rb := b.reviewScore.getD 0
  decide (sb < sa ∨ (sb = sa ∧ (rb < ra ∨ (rb = ra ∧
    calculatePopularityScore b ≤ calculatePopularityScore a))))

/-- The criteria record taken by `findAlternatives`. -/
structure AltCriteria where
  priceRange : Option (ℚ × ℚ)
  limit : Option Nat
deriving DecidableEq

/-- The query filter of `hotelSchema.statics.findAlternatives`: not the
original document, same city and country, active, star rating inside
`[max(1, orig-1), min(5, orig+1)]` when the original has a (truthy) rating,
optional price-range bounds. -/
def altPasses (orig : DirHotel) (c : AltCriteria) (h : DirHotel) : Bool :=
  decide (h.hid ≠ orig.hid) && decide (h.city = orig.city) &&
  decide (h.country = orig.country) && decide (h.status = "active") &&
  (match orig.starRating with
    | some s =>
      if s ≠ 0 then
        match h.starRating with
        | some hs => decide (max 1 (s - 1) ≤ hs ∧ hs ≤ min 5 (s + 1))
        | none => false
      else true
    | none => true) &&
  (match c.priceRange with
    | some pr =>
      match h.priceMin, h.priceMax with
      | some pmin, some pmax => decide (pr.1 ≤ pmin ∧ pmax ≤ pr.2)
      | _, _ => false
    | none => true)

/-- `hotelSchema.statics.findAlternatives`: filter, sort descending by rating,
review score and popularity, cap at `criteria.limit || 5`. -/
def findAlternatives (db : List DirHotel) (orig : DirHotel) (c : AltCriteria) : List DirHotel :=
  (sortStable dirAltLe (db.filter (altPasses orig c))).take (jsOrNat c.limit 5)

/-! ## Search/verification orchestrator (`hotelService.js`)

Each awaited collaborator call is embedded as an `Except String` outcome held
in an environment record; a JS `throw`/rejected promise is `Except.error` with
the error message, and the service's `try`/`catch` blocks are matches on it. -/

/-- `response.data` of the TSS search call. -/
structure ApiData where
  hotels : Option (List RawHotel)
  totalResults : Option Nat
deriving DecidableEq

/-- The TSS search response. -/
structure ApiResponse where
  data : Option ApiData
deriving DecidableEq

/-- Provenance tag of a search response. -/
inductive Source where
  | cache
  | api
  | fallback
deriving DecidableEq

/-- The value returned by `searchHotels`. -/
structure SearchOutcome where
  hotels : List FormattedHotel
  total : Nat
  source : Source
deriving DecidableEq

/-- Decidable equality on embedded call outcomes. -/
instance {ε α : Type} [DecidableEq ε] [DecidableEq α] : DecidableEq (Except ε α) :=
  fun a b =>
    match a, b with
    | Except.error e, Except.error f =>
      if h : e = f then isTrue (by rw [h]) else isFalse (by intro hh; cases hh; exact h rfl)
    | Except.error _, Except.ok _ => isFalse (by intro hh; cases hh)
    | Except.ok _, Except.error _ => isFalse (by intro hh; cases hh)
    | Except.ok x, Except.ok y =>
      if h : x = y then isTrue (by rw [h]) else isFalse (by intro hh; cases hh; exact h rfl)

/-- The environment of one `searchHotels` call: the outcome of each awaited
collaborator operation, plus the directory contents seen by the fallback. -/
structure SearchEnv where
  cacheLookup : Except String (Option CacheEntry)
  recordHitOutcome : Except String Unit
  apiOutcome : Except String ApiResponse
  cacheWriteOutcome : Except String Unit
  upsertOutcomes : List (Except String Unit)
  db : List DirHotel
  dbFailure : Option String
deriving DecidableEq

/-- `formatHotelDetails` applied to a directory document (restricted to the
fields this core observes; a stored document has no `id`, `category`, `rating`
or `numberOfReviews` member, so each coalescing pair degenerates). -/
def dirToFormatted (h : DirHotel) : FormattedHotel where
  id := orStr none (some h.hotelId)
  name := orStr (some h.name) none
  address := some h.address
  city := some h.city
  country := some h.country
  latitude := none
  longitude := none
  starRating := orNum h.starRating none
  reviewScore := orNum h.reviewScore none
  reviewCount := orNum h.reviewCount none
  priceAmount := none
  priceCurrency := "EUR"
  pricePerNight := none
  amenities := []
  images := []
  description := none
  distance := none
  availability := none

/-- The result shape of `searchHotelsFromDatabase`. -/
structure DbSearchResult where
  hotels : List FormattedHotel
  total : Nat
deriving DecidableEq

/-- `HotelService.searchHotelsFromDatabase`: a case-insensitive substring
query on city or address, restricted to active/available documents, capped at
20; its `try`/`catch` turns any query failure into the empty result, so the
function never throws. -/
def searchHotelsFromDatabase (env : SearchEnv) (location : String) : DbSearchResult :=
  match env.dbFailure with
  | some _ => { hotels := [], total := 0 }
  | none =>
    let found := (env.db.filter fun h =>
      (regexTest location h.city || regexTest location h.address) &&
        decide (h.status = "active") && decide (h.availability = "available")).take 20
    { hotels := found.map dirToFormatted, total := found.length }

/-- `HotelService.updateOrCreateHotel`: the body is wrapped in `try`/`catch`
with only a `console.error`, so every outcome is absorbed. -/
def updateOrCreateHotel (out : Except String Unit) : Except String Unit :=
  match out with
  | Except.ok _ => Except.ok ()
  | Except.error _ => Except.ok ()

/-- `HotelService.updateOrCreateHotels`: `Promise.all` over the per-hotel
writes, itself wrapped in another absorbing `try`/`catch`. -/
def updateOrCreateHotels (outs : List (Except String Unit)) : Except String Unit :=
  match outs.foldr (fun o acc => Except.bind (updateOrCreateHotel o) (fun _ => acc))
      (Except.ok ()) with
  | Except.ok _ => Except.ok ()
  | Except.error _ => Except.ok ()

/-- The `try` block of `HotelService.searchHotels`: cache probe, then the TSS
call; on data with a `hotels` member (arrays are truthy even when empty) the
results are formatted, the cache write is awaited (it may throw — there is no
`try`/`catch` around it), the directory upserts are awaited (they cannot
throw), and the formatted hotels are returned tagged `api`. -/
def searchHotelsTry (env : SearchEnv) : Except String SearchOutcome :=
  match env.cacheLookup with
  | Except.error e => Except.error e
  | Except.ok (some c) =>
    match env.recordHitOutcome with
    | Except.error e => Except.error e
    | Except.ok _ =>
      Except.ok
        { hotels := c.results.hotels
          total := c.results.totalResults
          source := Source.cache }
  | Except.ok none =>
    match env.apiOutcome with
    | Except.error e => Except.error e
    | Except.ok resp =>
      match resp.data with
      | some d =>
        match d.hotels with
        | some raw =>
          let formatted := formatHotelResults raw
          match env.cacheWriteOutcome with
          | Except.error e => Except.error e
          | Except.ok _ =>
            match updateOrCreateHotels env.upsertOutcomes with
            | Except.error e => Except.error e
            | Except.ok _ =>
              Except.ok
                { hotels := formatted
                  total := jsOrNat d.totalResults formatted.length
                  source := Source.api }
        | none => Except.ok { hotels := [], total := 0, source := Source.api }
      | none => Except.ok { hotels := [], total := 0, source := Source.api }

/-- `HotelService.searchHotels`: the `catch` block queries the directory by
location; non-empty fallback results are returned tagged `fallback`, otherwise
the generic inventory-unavailable error is thrown. -/
def searchHotels (env : SearchEnv) (p : SearchParams) : Except String SearchOutcome :=
  match searchHotelsTry env with
  | Except.ok r => Except.ok r
  | Except.error _ =>
    let fb := searchHotelsFromDatabase env p.location
    if fb.hotels.length > 0 then
      Except.ok { hotels := fb.hotels, total := fb.total, source := Source.fallback }
    else
      Except.error ("Failed to search hotels via TSS API")

/-- The name a formatted hotel exposes to the matching code (the source
assumes `hotel.name` is present and a string). -/
def fhName (h : FormattedHotel) : String := h.name.getD ""

/-- The classification record returned by `searchHotelByName`. -/
structure NameMatch where
  found : Bool
  hotel : Option FormattedHotel
  confidence : ℚ
deriving DecidableEq

/-- The matching core of `HotelService.searchHotelByName` over the search
results: first exact case-insensitive name equality (confidence 1.0), then a
substring match in either direction (confidence 0.8), else not found. -/
def hotelNameMatch (hotels : List FormattedHotel) (hotelName : String) : NameMatch :=
  match hotels.find? (fun h => decide (jsToLower (fhName h) = jsToLower hotelName)) with
  | some h => { found := true, hotel := some h, confidence := 1 }
  | none =>
    match hotels.find? (fun h =>
        jsIncludes (jsToLower (fhName h)) (jsToLower hotelName) ||
        jsIncludes (jsToLower hotelName) (jsToLower (fhName h))) with
    | some h => { found := true, hotel := some h, confidence := 4/5 }
    | none => { found := false, hotel := none, confidence := 0 }

/-- `HotelService.searchHotelByName`: a fresh `searchHotels` call followed by
the matching core; its `catch` rethrows with a wrapping message. -/
def searchHotelByName (env : SearchEnv) (p : SearchParams) (hotelName : String) :
    Except String NameMatch :=
  match searchHotels env p with
  | Except.ok r => Except.ok (hotelNameMatch r.hotels hotelName)
  | Except.error e => Except.error ("Failed to search hotel by name: " ++ e)

/-- The argument record of `getAlternativeHotels` (`limit = 5` is a JS default
parameter: it applies only when the argument is absent, not when it is 0). -/
structure AltArgs where
  originalHotelName : String
  priceRange : Option (ℚ × ℚ)
  starRating : Option ℚ
  limit : Option Nat
deriving DecidableEq

/-- The weighted ranking score of an alternative:
`0.7 * starRating + 0.3 * reviewScore` with missing fields as 0. -/
def altScore (h : FormattedHotel) : ℚ :=
  (h.starRating.getD 0) * (7/10) + (h.reviewScore.getD 0) * (3/10)

/-- Descending stable order by `altScore` (the JS comparator `bScore - aScore`). -/
def altScoreLe (a b : FormattedHotel) : Bool :=
  decide (altScore b ≤ altScore a)

/-- Stage 1 of the `getAlternativeHotels` filter: drop the original hotel's
name, case-insensitively. -/
def altNameFilter (args : AltArgs) (hotels : List FormattedHotel) : List FormattedHotel :=
  hotels.filter fun h =>
    decide (jsToLower (fhName h) ≠ jsToLower args.originalHotelName)

/-- The ±0.5-star admission test of `getAlternativeHotels`
(`Math.abs(hotel.starRating - starRating) <= 0.5`); a hotel without a star
rating yields NaN in the source and every NaN comparison is false. -/
def altStarPred (s : ℚ) (h : FormattedHotel) : Bool :=
  match h.starRating with
  | some hs => decide (jsAbs (hs - s) ≤ 1/2)
  | none => false

/-- Stage 2: the star-rating window, applied only for a truthy `starRating`. -/
def altStarFilter (args : AltArgs) (l : List FormattedHotel) : List FormattedHotel :=
  match args.starRating with
  | some s => if s ≠ 0 then l.filter (altStarPred s) else l
  | none => l

/-- Stage 3: the optional price window over `price?.amount || 0`. -/
def altPriceFilter (args : AltArgs) (l : List FormattedHotel) : List FormattedHotel :=
  match args.priceRange with
  | some pr => l.filter fun h =>
      decide (pr.1 ≤ (h.priceAmount).getD 0 ∧ (h.priceAmount).getD 0 ≤ pr.2)
  | none => l

/-- The filtering stage of `getAlternativeHotels` (`alts1`/`alts2`/`alts3` of
the source, in order). -/
def altFiltered (hotels : List FormattedHotel) (args : AltArgs) : List FormattedHotel :=
  altPriceFilter args (altStarFilter args (altNameFilter args hotels))

/-- The post-search body of `HotelService.getAlternativeHotels`: filter, sort
descending by the weighted score, `slice(0, limit)`. -/
def alternativesFrom (hotels : List FormattedHotel) (args : AltArgs) : List FormattedHotel :=
  (sortStable altScoreLe (altFiltered hotels args)).take (args.limit.getD 5)

/-- `HotelService.getAlternativeHotels`: a fresh `searchHotels` call followed
by the filtering body; its `catch` rethrows with a wrapping message. -/
def getAlternativeHotels (env : SearchEnv) (p : SearchParams) (args : AltArgs) :
    Except String (List FormattedHotel) :=
  match searchHotels env p with
  | Except.ok r => Except.ok (alternativesFrom r.hotels args)
  | Except.error e => Except.error ("Failed to get alternative hotels: " ++ e)

/-! ## Concrete fixtures used by witnesses and counterexamples -/

/-- A directory document for the fallback fixtures. -/
def dirParis : DirHotel where
  hid := 1
  hotelId := "H1"
  name := "Hotel Lutetia"
  address := "45 Bd Raspail"
  city := "Paris"
  country := "France"
  status := "active"
  availability := "available"
  starRating := some 5
  reviewScore := some 9
  reviewCount := some 1200
  priceMin := some 200
  priceMax := some 900
  verificationHistory := [true, true, false]
  isFeatured := true

/-- Concrete search parameters (dates on UTC days 20000 and 20002). -/
def pParis : SearchParams where
  location := "Paris"
  checkIn := 20000 * msPerDay
  checkOut := 20002 * msPerDay
  rooms := some 1
  guests := some 2
  additionalFilters := none

/-- Environment: cache miss, failing TSS call, one matching directory row. -/
def envC1 : SearchEnv where
  cacheLookup := Except.ok none
  recordHitOutcome := Except.ok ()
  apiOutcome := Except.error ("boom")
  cacheWriteOutcome := Except.ok ()
  upsertOutcomes := []
  db := [dirParis]
  dbFailure := none

/-! ## C1 -/

/-- C1: on a cache miss with a failing external inventory call, `searchHotels`
queries the hotel directory by location; a non-empty directory result is
returned tagged `source = fallback`, and an empty one makes the call fail with
the inventory-unavailable error instead of returning an empty success. -/
theorem C1_searchHotels_fallback_chain (env : SearchEnv) (p : SearchParams) (e : String)
    (hc : env.cacheLookup = Except.ok none)
    (ha : env.apiOutcome = Except.error e) :
    ((searchHotelsFromDatabase env p.location).hotels ≠ [] →
      searchHotels env p = Except.ok
        { hotels := (searchHotelsFromDatabase env p.location).hotels
          total := (searchHotelsFromDatabase env p.location).total
          source := Source.fallback }) ∧
    ((searchHotelsFromDatabase env p.location).hotels = [] →
      searchHotels env p = Except.error ("Failed to search hotels via TSS API")) := by
  unfold searchHotels searchHotelsTry
  rw [hc, ha]
  constructor
  · intro hne
    simp [List.length_pos, hne]
  · intro hemp
    simp [hemp]

/-- C1 witness: both branches of the fallback chain at concrete inputs. -/
theorem C1_witness :
    ((searchHotelsFromDatabase envC1 pParis.location).hotels ≠ [] ∧
      searchHotels envC1 pParis = Except.ok
        { hotels := (searchHotelsFromDatabase envC1 pParis.location).hotels
          total := (searchHotelsFromDatabase envC1 pParis.location).total
          source := Source.fallback }) ∧
    searchHotels { envC1 with db := [] } pParis =
      Except.error ("Failed to search hotels via TSS API") := by
  refine ⟨⟨by decide, ?_⟩, ?_⟩
  · exact (C1_searchHotels_fallback_chain envC1 pParis ("boom") rfl rfl).1 (by decide)
  · exact (C1_searchHotels_fallback_chain { envC1 with db := [] } pParis ("boom") rfl rfl).2
      (by decide)

/-! ## C2 -/

/-- Parameters whose check-out (UTC day 19998) is before the write time. -/
def pPast : SearchParams where
  location := "Rome"
  checkIn := 19996 * msPerDay
  checkOut := 19998 * msPerDay
  rooms := some 1
  guests := some 1
  additionalFilters := none

/-- Write time for the C2 evaluation: mid UTC day 20000. -/
def nowC2 : Int := 20000 * msPerDay + 1000

/-- Empty payload for the C2 evaluation. -/
def resC2 : CacheResults where
  hotels := []
  totalResults := 0

/-- C2, evaluated at the failing input: storing a search whose check-out is
strictly before the current day through `createOrUpdateCache` leaves the entry
`active` with `isExpired = false` (the `findOneAndUpdate` write path never runs
the `pre('save')` middleware), and the subsequent lookup with the same
signature *hits*; yet the document middleware the schema itself installs would
have marked exactly this entry expired, as the last conjunct shows. -/
theorem C2_past_checkout_store_evaluation :
    pPast.checkOut < startOfDay nowC2 ∧
    (createOrUpdateCache nowC2 [] pPast resC2 2).map (fun e => (e.status, e.isExpired)) =
      [(CacheStatus.active, false)] ∧
    (findValidCache nowC2 (createOrUpdateCache nowC2 [] pPast resC2 2) pPast).isSome = true ∧
    (preSaveHook nowC2 (cacheWrittenEntry nowC2 pPast resC2 2 none)).status =
      CacheStatus.expired ∧
    (preSaveHook nowC2 (cacheWrittenEntry nowC2 pPast resC2 2 none)).isExpired = true := by
  decide

/-! ## C3 -/

/-- The directory upserts can never surface a failure: each per-hotel write
and the surrounding batch are both wrapped in absorbing `try`/`catch`es. -/
theorem updateOrCreateHotels_ok (outs : List (Except String Unit)) :
    updateOrCreateHotels outs = Except.ok () := by
  unfold updateOrCreateHotels
  have hfold : outs.foldr
      (fun o acc => Except.bind (updateOrCreateHotel o) (fun _ => acc))
      (Except.ok ()) = Except.ok () := by
    induction outs with
    | nil => rfl
    | cons o rest ih =>
      simp only [List.foldr_cons, ih]
      cases o <;> rfl
  rw [hfold]

/-- An inbound record with every field absent, to be overridden pointwise. -/
def rawEmpty : RawHotel where
  id := none
  hotelId := none
  name := none
  hotelName := none
  address := none
  city := none
  country := none
  latitude := none
  longitude := none
  starRating := none
  category := none
  reviewScore := none
  rating := none
  reviewCount := none
  numberOfReviews := none
  price := none
  totalPrice := none
  pricePerNight := none
  amenities := none
  facilities := none
  images := none
  photos := none
  description := none
  hotelDescription := none
  distance := none
  availability := none

/-- A successful inbound API hotel. -/
def rawC3 : RawHotel :=
  { rawEmpty with id := some "A1", name := some "API Hotel", starRating := some 4 }

/-- Environment: cache miss, successful TSS call returning one hotel, failing
cache write, empty directory. -/
def envC3 : SearchEnv where
  cacheLookup := Except.ok none
  recordHitOutcome := Except.ok ()
  apiOutcome := Except.ok { data := some { hotels := some [rawC3], totalResults := some 1 } }
  cacheWriteOutcome := Except.error ("cache write failed")
  upsertOutcomes := []
  db := []
  dbFailure := none

/-- C3 counterexample: the external call succeeded and returned a hotel, only
the cache write failed — yet the search response is not the formatted hotels
tagged `source = api`, but the inventory-unavailable error (the uncaught cache
write rejection lands in the outer `catch` and the empty fallback throws). -/
theorem C3_counterexample :
    envC3.apiOutcome =
      Except.ok { data := some { hotels := some [rawC3], totalResults := some 1 } } ∧
    envC3.cacheWriteOutcome = Except.error ("cache write failed") ∧
    searchHotels envC3 pParis = Except.error ("Failed to search hotels via TSS API") := by
  decide

/-- C3 amended: on a cache miss with a successful inventory call, directory
upsert failures never change the search response; with a successful cache
write the formatted hotels are returned tagged `source = api`; but a cache
write failure aborts the `api` path and diverts to the fallback chain
(directory results tagged `fallback`, or the inventory-unavailable error). -/
theorem C3_persistence_failures (env : SearchEnv) (p : SearchParams) (d : ApiData)
    (raw : List RawHotel) (hc : env.cacheLookup = Except.ok none)
    (ha : env.apiOutcome = Except.ok { data := some d }) (hh : d.hotels = some raw) :
    (∀ outs, searchHotels { env with upsertOutcomes := outs } p = searchHotels env p) ∧
    (env.cacheWriteOutcome = Except.ok () →
      searchHotels env p = Except.ok
        { hotels := formatHotelResults raw
          total := jsOrNat d.totalResults (formatHotelResults raw).length
          source := Source.api }) ∧
    (∀ msg, env.cacheWriteOutcome = Except.error msg →
      ((searchHotelsFromDatabase env p.location).hotels ≠ [] →
        searchHotels env p = Except.ok
          { hotels := (searchHotelsFromDatabase env p.location).hotels
            total := (searchHotelsFromDatabase env p.location).total
            source := Source.fallback }) ∧
      ((searchHotelsFromDatabase env p.location).hotels = [] →
        searchHotels env p = Except.error ("Failed to search hotels via TSS API"))) := by
  refine ⟨?_, ?_, ?_⟩
  · intro outs
    unfold searchHotels searchHotelsTry
    simp only [hc, ha, hh, updateOrCreateHotels_ok]
    rfl
  · intro hw
    unfold searchHotels searchHotelsTry
    rw [hc, ha]
    simp [hh, hw, updateOrCreateHotels_ok]
  · intro msg hw
    constructor
    · intro hne
      unfold searchHotels searchHotelsTry
      rw [hc, ha]
      simp [hh, hw, List.length_pos, hne]
    · intro hemp
      unfold searchHotels searchHotelsTry
      rw [hc, ha]
      simp [hh, hw, hemp]

/-- C3 witness: with the same environment but a successful cache write, the
response is the formatted API hotels tagged `api`; with the failing write and
a matching directory row, the response is tagged `fallback`. -/
theorem C3_witness :
    searchHotels { envC3 with cacheWriteOutcome := Except.ok () } pParis = Except.ok
      { hotels := formatHotelResults [rawC3]
        total := jsOrNat (some 1) ((formatHotelResults [rawC3]).length)
        source := Source.api } ∧
    searchHotels { envC3 with db := [dirParis] } pParis = Except.ok
      { hotels :=
          (searchHotelsFromDatabase { envC3 with db := [dirParis] } pParis.location).hotels
        total :=
          (searchHotelsFromDatabase { envC3 with db := [dirParis] } pParis.location).total
        source := Source.fallback } := by
  constructor
  · exact (C3_persistence_failures { envC3 with cacheWriteOutcome := Except.ok () } pParis
      { hotels := some [rawC3], totalResults := some 1 } [rawC3] rfl rfl rfl).2.1 rfl
  · exact ((C3_persistence_failures { envC3 with db := [dirParis] } pParis
      { hotels := some [rawC3], totalResults := some 1 } [rawC3] rfl rfl rfl).2.2
      ("cache write failed") rfl).1 (by decide)

/-! ## C4 -/

/-- C4: `findValidCache` returns an entry only when that entry is stored under
the requested signature with status `active`, `isExpired = false`, and an
`expiresAt` strictly in the future — in particular it never returns an entry
whose expiry is past, whatever the flags say. -/
theorem C4_findValidCache_only_valid (now : Int) (store : CacheStore) (p : SearchParams)
    (e : CacheEntry) (h : findValidCache now store p = some e) :
    e.status = CacheStatus.active ∧ e.isExpired = false ∧ now < e.expiresAt ∧
      e.searchKey = generateSearchKey p ∧ e ∈ store := by
  unfold findValidCache at h
  have hmem : e ∈ store := List.mem_of_find?_eq_some h
  have hpred := List.find?_some h
  simp only [Bool.and_eq_true, decide_eq_true_eq, Bool.not_eq_true'] at hpred
  obtain ⟨⟨⟨hkey, hstat⟩, hexp⟩, hlt⟩ := hpred
  exact ⟨hstat, hexp, hlt, hkey, hmem⟩

/-- The entry written for `pParis` at time `nowC2` — a currently valid entry. -/
def entryC4 : CacheEntry := cacheWrittenEntry nowC2 pParis resC2 2 none

/-- C4 witness: a store on which the lookup actually hits. -/
theorem C4_witness :
    entryC4.status = CacheStatus.active ∧ entryC4.isExpired = false ∧
      nowC2 < entryC4.expiresAt ∧ entryC4.searchKey = generateSearchKey pParis ∧
      entryC4 ∈ [entryC4] :=
  C4_findValidCache_only_valid nowC2 [entryC4] pParis entryC4 (by decide)

/-! ## C5 -/

/-- The same search with extra leading whitespace in the location. -/
def pParisWs : SearchParams := { pParis with location := " Paris" }

/-- C5 counterexample: two searches whose locations differ only in whitespace
(dropping all whitespace makes them identical, and their casing agrees) while
every other parameter is shared, yet the generated signatures differ —
`replace(/\s+/g, "-")` collapses whitespace runs but does not erase them, so a
leading space survives as a leading `-`. -/
theorem C5_counterexample :
    pParis.location.toList.filter (fun c => !isJsSpace c) =
      pParisWs.location.toList.filter (fun c => !isJsSpace c) ∧
    pParisWs = { pParis with location := pParisWs.location } ∧
    generateSearchKey pParis ≠ generateSearchKey pParisWs := by
  decide

/-- C5 amended: the signature is a pure function of the normalized inputs —
it is unchanged under any casing change of the location and under widening or
narrowing of each (non-empty) whitespace run (formally: whenever the
lower-cased, whitespace-run-collapsed locations agree), and under moving
either date within its UTC calendar day; inserting or deleting whitespace
(e.g. a leading space) is *not* neutral. -/
theorem C5_signature_normalization (p1 p2 : SearchParams)
    (hl : collapseWs (jsToLower p1.location) = collapseWs (jsToLower p2.location))
    (hin : epochDay p1.checkIn = epochDay p2.checkIn)
    (hout : epochDay p1.checkOut = epochDay p2.checkOut)
    (hr : p1.rooms = p2.rooms) (hg : p1.guests = p2.guests)
    (hf : p1.additionalFilters = p2.additionalFilters) :
    generateSearchKey p1 = generateSearchKey p2 := by
  unfold generateSearchKey isoDayString
  rw [hl, hin, hout, hr, hg, hf]

/-- C5 witness: changed casing, a doubled internal whitespace run, and a
check-in two hours later inside the same UTC day leave the signature equal. -/
theorem C5_witness :
    generateSearchKey { pParis with location := "New York" } =
      generateSearchKey
        { pParis with
          location := "NEW  york"
          checkIn := pParis.checkIn + 2 * msPerHour } :=
  C5_signature_normalization _ _ (by decide) (by decide) (by decide) rfl rfl rfl

/-! ## C6 -/

/-- The star term's truthiness guard is redundant: the term vanishes at 0. -/
theorem gate_star (x : ℚ) :
    (if optTruthyQ (some x) then (x / 5) * 25 else 0) = (x / 5) * 25 := by
  by_cases hx : x = 0 <;> simp [optTruthyQ, hx]

/-- The review-score term's truthiness guard is redundant. -/
theorem gate_review (x : ℚ) :
    (if optTruthyQ (some x) then (x / 10) * 30 else 0) = (x / 10) * 30 := by
  by_cases hx : x = 0 <;> simp [optTruthyQ, hx]

/-- The review-count term's truthiness guard is redundant. -/
theorem gate_count (x : ℚ) :
    (if optTruthyQ (some x) then min ((x / 1000) * 20) 20 else 0) =
      min ((x / 1000) * 20) 20 := by
  by_cases hx : x = 0 <;> simp [optTruthyQ, hx]

/-- The history guard is redundant: an empty history has success rate 0. -/
theorem gate_history (l : List Bool) :
    (if l.length > 0 then successRate l * 15 else 0) = successRate l * 15 := by
  cases l with
  | nil => simp [successRate]
  | cons b t => simp

/-- A success rate is non-negative. -/
theorem successRate_nonneg (l : List Bool) : 0 ≤ successRate l := by
  unfold successRate
  positivity

/-- `popScoreRaw` with all numeric fields present. -/
theorem popScoreRaw_eq (h : DirHotel) (s r c : ℚ)
    (hs : h.starRating = some s) (hr : h.reviewScore = some r)
    (hc : h.reviewCount = some c) :
    popScoreRaw h = (s / 5) * 25 + (r / 10) * 30 + min ((c / 1000) * 20) 20 +
      successRate h.verificationHistory * 15 +
      (if h.isFeatured then 10 else 0) := by
  unfold popScoreRaw
  rw [hs, hr, hc]
  simp only [Option.getD_some]
  rw [gate_star, gate_review, gate_count, gate_history]

/-- JS rounding is monotone. -/
theorem jsRound_mono {a b : ℚ} (hab : a ≤ b) : jsRound a ≤ jsRound b :=
  Int.floor_le_floor (by linarith)

/-- The popularity score is monotone in the un-rounded sum. -/
theorem calcScore_mono {h1 h2 : DirHotel} (hle : popScoreRaw h1 ≤ popScoreRaw h2) :
    calculatePopularityScore h1 ≤ calculatePopularityScore h2 :=
  jsRound_mono (min_le_min hle le_rfl)

/-- C6: with the numeric fields present and inside their schema ranges, the
popularity score equals the documented formula
`25*star/5 + 30*review/10 + min(20, 20*count/1000) + 15*successRate +
(10 if featured)` clamped to 100 and rounded; it lies in `[0, 100]`; and it is
monotone in star rating, review score, review count, and verification success
rate separately. -/
theorem C6_popularity_score (h : DirHotel) (s r c : ℚ)
    (hs : h.starRating = some s) (hs1 : 1 ≤ s) (_hs5 : s ≤ 5)
    (hr : h.reviewScore = some r) (hr0 : 0 ≤ r) (_hr10 : r ≤ 10)
    (hc : h.reviewCount = some c) (hc0 : 0 ≤ c) :
    calculatePopularityScore h =
      jsRound (min (25 * s / 5 + 30 * r / 10 + min 20 (20 * c / 1000) +
        15 * successRate h.verificationHistory +
        (if h.isFeatured then 10 else 0)) 100) ∧
    0 ≤ calculatePopularityScore h ∧ calculatePopularityScore h ≤ 100 ∧
    (∀ s', s ≤ s' →
      calculatePopularityScore h ≤ calculatePopularityScore { h with starRating := some s' }) ∧
    (∀ r', r ≤ r' →
      calculatePopularityScore h ≤ calculatePopularityScore { h with reviewScore := some r' }) ∧
    (∀ c', c ≤ c' →
      calculatePopularityScore h ≤ calculatePopularityScore { h with reviewCount := some c' }) ∧
    (∀ l', successRate h.verificationHistory ≤ successRate l' →
      calculatePopularityScore h ≤
        calculatePopularityScore { h with verificationHistory := l' }) := by
  have hraw := popScoreRaw_eq h s r c hs hr hc
  have hraw0 : 0 ≤ popScoreRaw h := by
    rw [hraw]
    have t1 : 0 ≤ (s / 5) * 25 := by positivity
    have t2 : 0 ≤ (r / 10) * 30 := by positivity
    have t3 : 0 ≤ min ((c / 1000) * 20) 20 :=
      le_min (by positivity) (by norm_num)
    have t4 : 0 ≤ successRate h.verificationHistory * 15 := by
      have := successRate_nonneg h.verificationHistory
      positivity
    have t5 : 0 ≤ (if h.isFeatured then (10:ℚ) else 0) := by
      split <;> norm_num
    linarith
  refine ⟨?_, ?_, ?_, ?_, ?_, ?_, ?_⟩
  · unfold calculatePopularityScore
    rw [hraw]
    congr 2
    rw [min_comm ((c / 1000) * 20) 20]
    have : (c / 1000) * 20 = 20 * c / 1000 := by ring
    rw [this]
    ring
  · unfold calculatePopularityScore jsRound
    have : (0:ℚ) ≤ min (popScoreRaw h) 100 := le_min hraw0 (by norm_num)
    exact Int.le_floor.mpr (by push_cast; linarith)
  · unfold calculatePopularityScore jsRound
    have : min (popScoreRaw h) 100 ≤ 100 := min_le_right _ _
    have hlt : (min (popScoreRaw h) 100 + 1/2 : ℚ) < ((101 : ℤ) : ℚ) := by
      push_cast; linarith
    have := Int.floor_lt.mpr hlt
    omega
  · intro s' hss
    apply calcScore_mono
    rw [hraw, popScoreRaw_eq { h with starRating := some s' } s' r c rfl hr hc]
    have : (s / 5) * 25 ≤ (s' / 5) * 25 := by linarith
    simp only
    linarith
  · intro r' hrr
    apply calcScore_mono
    rw [hraw, popScoreRaw_eq { h with reviewScore := some r' } s r' c hs rfl hc]
    have : (r / 10) * 30 ≤ (r' / 10) * 30 := by linarith
    simp only
    linarith
  · intro c' hcc
    apply calcScore_mono
    rw [hraw, popScoreRaw_eq { h with reviewCount := some c' } s r c' hs hr rfl]
    have : min ((c / 1000) * 20) 20 ≤ min ((c' / 1000) * 20) 20 :=
      min_le_min (by linarith) le_rfl
    simp only
    linarith
  · intro l' hll
    apply calcScore_mono
    rw [hraw, popScoreRaw_eq { h with verificationHistory := l' } s r c hs hr hc]
    simp only
    have : successRate h.verificationHistory * 15 ≤ successRate l' * 15 := by linarith
    linarith

/-- C6 witness: the bounds and a monotone step at a concrete directory row. -/
theorem C6_witness :
    0 ≤ calculatePopularityScore dirParis ∧ calculatePopularityScore dirParis ≤ 100 ∧
    calculatePopularityScore dirParis ≤
      calculatePopularityScore { dirParis with reviewCount := some 2000 } := by
  have main := C6_popularity_score dirParis 5 9 1200 rfl (by norm_num) (by norm_num)
    rfl (by norm_num) (by norm_num) rfl (by norm_num)
  exact ⟨main.2.1, main.2.2.1, main.2.2.2.2.2.1 2000 (by norm_num)⟩

/-! ## C7 -/

/-- Membership through stable insertion. -/
theorem mem_insertSorted {le : α → α → Bool} {x a : α} {l : List α} :
    a ∈ insertSorted le x l ↔ a = x ∨ a ∈ l := by
  induction l with
  | nil => simp [insertSorted]
  | cons y ys ih =>
    unfold insertSorted
    split
    · rw [List.mem_cons, ih, List.mem_cons]
      tauto
    · rw [List.mem_cons]

/-- Sorting preserves membership. -/
theorem mem_sortStable {le : α → α → Bool} {a : α} {l : List α} :
    a ∈ sortStable le l ↔ a ∈ l := by
  induction l with
  | nil => simp [sortStable]
  | cons y ys ih =>
    unfold sortStable
    rw [mem_insertSorted, ih]
    simp

/-- Unfolding of a passing `findAlternatives` filter row. -/
theorem altPasses_spec {orig : DirHotel} {c : AltCriteria} {h : DirHotel}
    (hp : altPasses orig c h = true) :
    h.hid ≠ orig.hid ∧ h.city = orig.city ∧ h.country = orig.country ∧
      h.status = "active" ∧
      (∀ s, orig.starRating = some s → s ≠ 0 →
        ∃ hs, h.starRating = some hs ∧ max 1 (s - 1) ≤ hs ∧ hs ≤ min 5 (s + 1)) := by
  unfold altPasses at hp
  simp only [Bool.and_eq_true, decide_eq_true_eq] at hp
  obtain ⟨⟨⟨⟨⟨hhid, hcity⟩, hcountry⟩, hstatus⟩, hstar⟩, _hprice⟩ := hp
  refine ⟨hhid, hcity, hcountry, hstatus, ?_⟩
  intro s hos hs0
  split at hstar
  next s' heq =>
    rw [hos] at heq
    injection heq with heq'
    subst heq'
    rw [if_pos hs0] at hstar
    split at hstar
    next hs hh => exact ⟨hs, hh, (of_decide_eq_true hstar).1, (of_decide_eq_true hstar).2⟩
    next hh => cases hstar
  next heq => rw [hos] at heq; cases heq

/-- A row meeting all the filter conditions passes the `findAlternatives`
filter. -/
theorem altPasses_intro {orig : DirHotel} {c : AltCriteria} {h : DirHotel}
    (hhid : h.hid ≠ orig.hid) (hcity : h.city = orig.city)
    (hcountry : h.country = orig.country) (hstatus : h.status = "active")
    (hstar : ∀ s, orig.starRating = some s → s ≠ 0 →
      ∃ hs, h.starRating = some hs ∧ max 1 (s - 1) ≤ hs ∧ hs ≤ min 5 (s + 1))
    (hprice : ∀ pr, c.priceRange = some pr →
      ∃ pmin pmax, h.priceMin = some pmin ∧ h.priceMax = some pmax ∧
        pr.1 ≤ pmin ∧ pmax ≤ pr.2) :
    altPasses orig c h = true := by
  unfold altPasses
  simp only [Bool.and_eq_true, decide_eq_true_eq]
  refine ⟨⟨⟨⟨⟨hhid, hcity⟩, hcountry⟩, hstatus⟩, ?_⟩, ?_⟩
  · cases hos : orig.starRating with
    | none => rfl
    | some s =>
      show (if s ≠ 0 then
          (match h.starRating with
            | some hs => decide (max 1 (s - 1) ≤ hs ∧ hs ≤ min 5 (s + 1))
            | none => false)
        else true) = true
      by_cases hs0 : s = 0
      · rw [if_neg (by simp [hs0])]
      · rw [if_pos hs0]
        obtain ⟨hs, hh, hb1, hb2⟩ := hstar s hos hs0
        rw [hh]
        show decide (max 1 (s - 1) ≤ hs ∧ hs ≤ min 5 (s + 1)) = true
        exact decide_eq_true ⟨hb1, hb2⟩
  · cases hpr : c.priceRange with
    | none => rfl
    | some pr =>
      obtain ⟨pmin, pmax, h1, h2, h3, h4⟩ := hprice pr hpr
      show (match h.priceMin, h.priceMax with
        | some pmin, some pmax => decide (pr.1 ≤ pmin ∧ pmax ≤ pr.2)
        | _, _ => false) = true
      rw [h1, h2]
      show decide (pr.1 ≤ pmin ∧ pmax ≤ pr.2) = true
      exact decide_eq_true ⟨h3, h4⟩

/-- The price stage only discards elements. -/
theorem mem_altPriceFilter {args : AltArgs} {l : List FormattedHotel}
    {h : FormattedHotel} (hm : h ∈ altPriceFilter args l) : h ∈ l := by
  unfold altPriceFilter at hm
  cases hpr : args.priceRange with
  | none => rw [hpr] at hm; exact hm
  | some pr =>
    rw [hpr] at hm
    exact (List.mem_filter.mp hm).1

/-- Unfolding of the star-window stage. -/
theorem altStarFilter_spec {args : AltArgs} {l : List FormattedHotel}
    {h : FormattedHotel} (hm : h ∈ altStarFilter args l) :
    h ∈ l ∧ (∀ s, args.starRating = some s → s ≠ 0 →
      ∃ hs, h.starRating = some hs ∧ |hs - s| ≤ 1/2) := by
  unfold altStarFilter at hm
  cases hsa : args.starRating with
  | none =>
    rw [hsa] at hm
    refine ⟨hm, ?_⟩
    intro s heq
    cases heq
  | some s =>
    rw [hsa] at hm
    have hm2 : h ∈ (if s ≠ 0 then l.filter (altStarPred s) else l) := hm
    by_cases hs0 : s = 0
    · rw [if_neg (by simp [hs0])] at hm2
      refine ⟨hm2, ?_⟩
      intro s' heq hs0'
      injection heq with he
      subst he
      exact absurd hs0 hs0'
    · rw [if_pos hs0] at hm2
      have hf := List.mem_filter.mp hm2
      refine ⟨hf.1, ?_⟩
      intro s' heq _
      injection heq with he
      subst he
      have hp := hf.2
      unfold altStarPred at hp
      cases hh : h.starRating with
      | none => rw [hh] at hp; cases hp
      | some hs =>
        rw [hh] at hp
        have habs : jsAbs (hs - s) ≤ 1/2 := of_decide_eq_true hp
        rw [jsAbs_eq_abs] at habs
        exact ⟨hs, rfl, habs⟩

/-- Unfolding of the name stage. -/
theorem altNameFilter_spec {args : AltArgs} {l : List FormattedHotel}
    {h : FormattedHotel} (hm : h ∈ altNameFilter args l) :
    h ∈ l ∧ jsToLower (fhName h) ≠ jsToLower args.originalHotelName := by
  unfold altNameFilter at hm
  have hf := List.mem_filter.mp hm
  exact ⟨hf.1, of_decide_eq_true hf.2⟩

/-- Unfolding of the orchestrator's alternatives filter. -/
theorem altFiltered_spec {hotels : List FormattedHotel} {args : AltArgs}
    {h : FormattedHotel} (hm : h ∈ altFiltered hotels args) :
    h ∈ hotels ∧ jsToLower (fhName h) ≠ jsToLower args.originalHotelName ∧
      (∀ s, args.starRating = some s → s ≠ 0 →
        ∃ hs, h.starRating = some hs ∧ |hs - s| ≤ 1/2) := by
  unfold altFiltered at hm
  have hstage := altStarFilter_spec (mem_altPriceFilter hm)
  have hname := altNameFilter_spec hstage.1
  exact ⟨hname.1, hname.2, hstage.2⟩

/-- C7 amended: the directory's `findAlternatives` never returns the original
document, only active same-city/country rows whose star rating (when the
original has one) lies in the window `[max(1, orig-1), min(5, orig+1)]` —
hence never more than 1 star away — and every row meeting those conditions
passes its filter; its output is capped at `criteria.limit || 5`.  The
orchestrator's `getAlternativeHotels` also excludes the original (by name) and
caps at its limit, but it admits only hotels within **0.5** stars of the
requested rating, not 1. -/
theorem C7_alternatives_bounds (db : List DirHotel) (orig : DirHotel) (c : AltCriteria)
    (env : SearchEnv) (p : SearchParams) (args : AltArgs) (res : SearchOutcome)
    (hsr : searchHotels env p = Except.ok res) :
    (∀ h ∈ findAlternatives db orig c,
      h.hid ≠ orig.hid ∧
      (∀ s, orig.starRating = some s → s ≠ 0 →
        ∃ hs, h.starRating = some hs ∧ max 1 (s - 1) ≤ hs ∧ hs ≤ min 5 (s + 1) ∧
          |hs - s| ≤ 1)) ∧
    (findAlternatives db orig c).length ≤ jsOrNat c.limit 5 ∧
    (∀ h ∈ db, altPasses orig c h = true → h ∈ db.filter (altPasses orig c)) ∧
    getAlternativeHotels env p args = Except.ok (alternativesFrom res.hotels args) ∧
    (∀ h ∈ alternativesFrom res.hotels args,
      jsToLower (fhName h) ≠ jsToLower args.originalHotelName ∧
      (∀ s, args.starRating = some s → s ≠ 0 →
        ∃ hs, h.starRating = some hs ∧ |hs - s| ≤ 1/2 ∧ |hs - s| ≤ 1)) ∧
    (alternativesFrom res.hotels args).length ≤ args.limit.getD 5 := by
  refine ⟨?_, ?_, ?_, ?_, ?_, ?_⟩
  · intro h hm
    unfold findAlternatives at hm
    have hm2 : h ∈ db.filter (altPasses orig c) :=
      mem_sortStable.mp (List.take_subset _ _ hm)
    have hp := (List.mem_filter.mp hm2).2
    obtain ⟨hhid, _, _, _, hstar⟩ := altPasses_spec hp
    refine ⟨hhid, ?_⟩
    intro s hos hs0
    obtain ⟨hs, hh, hb1, hb2⟩ := hstar s hos hs0
    refine ⟨hs, hh, hb1, hb2, ?_⟩
    have h1 : s - 1 ≤ hs := le_trans (le_max_right 1 (s - 1)) hb1
    have h2 : hs ≤ s + 1 := le_trans hb2 (min_le_right 5 (s + 1))
    rw [abs_le]
    constructor <;> linarith
  · unfold findAlternatives
    rw [List.length_take]
    exact min_le_left _ _
  · intro h hm hp
    exact List.mem_filter.mpr ⟨hm, hp⟩
  · unfold getAlternativeHotels
    rw [hsr]
  · intro h hm
    unfold alternativesFrom at hm
    have hm2 : h ∈ altFiltered res.hotels args :=
      mem_sortStable.mp (List.take_subset _ _ hm)
    obtain ⟨_, hname, hstar⟩ := altFiltered_spec hm2
    refine ⟨hname, ?_⟩
    intro s heq hs0
    obtain ⟨hs, hh, hb⟩ := hstar s heq hs0
    refine ⟨hs, hh, hb, ?_⟩
    calc |hs - s| ≤ 1/2 := hb
    _ ≤ 1 := by norm_num
  · unfold alternativesFrom
    rw [List.length_take]
    exact min_le_left _ _

/-- A formatted hotel with every optional field absent. -/
def fhEmpty : FormattedHotel where
  id := none
  name := none
  address := none
  city := none
  country := none
  latitude := none
  longitude := none
  starRating := none
  reviewScore := none
  reviewCount := none
  priceAmount := none
  priceCurrency := "EUR"
  pricePerNight := none
  amenities := []
  images := []
  description := none
  distance := none
  availability := none

/-- A 5-star formatted search result. -/
def hAlt5 : FormattedHotel :=
  { fhEmpty with name := some "Grand Alt", starRating := some 5, reviewScore := some 8 }

/-- A cache entry whose payload is that single 5-star hotel. -/
def entryC7 : CacheEntry where
  searchKey := generateSearchKey pParis
  searchParams := pParis
  results := { hotels := [hAlt5], totalResults := 1 }
  expiresAt := nowC2 + 2 * msPerHour
  isExpired := false
  status := CacheStatus.active
  hitCount := 1
  lastAccessed := nowC2

/-- Environment: cache hit on that entry. -/
def envC7 : SearchEnv where
  cacheLookup := Except.ok (some entryC7)
  recordHitOutcome := Except.ok ()
  apiOutcome := Except.error ("unused")
  cacheWriteOutcome := Except.ok ()
  upsertOutcomes := []
  db := []
  dbFailure := none

/-- Alternatives request around a 4-star original. -/
def argsC7 : AltArgs where
  originalHotelName := "Original Hotel"
  priceRange := none
  starRating := some 4
  limit := some 3

/-- C7 counterexample: the search yields one candidate exactly 1 star from
the requested original (within ±1, differently named, well under the limit),
yet `getAlternativeHotels` returns the empty list — its filter admits only a
±0.5-star window. -/
theorem C7_counterexample :
    searchHotels envC7 pParis =
      Except.ok { hotels := [hAlt5], total := 1, source := Source.cache } ∧
    hAlt5.starRating = some 5 ∧ argsC7.starRating = some 4 ∧ |(5:ℚ) - 4| ≤ 1 ∧
    jsToLower (fhName hAlt5) ≠ jsToLower argsC7.originalHotelName ∧
    argsC7.limit.getD 5 = 3 ∧
    getAlternativeHotels envC7 pParis argsC7 = Except.ok [] := by
  refine ⟨by decide, by decide, by decide, by norm_num, by decide, by decide, by decide⟩

/-- C7 witness: the amended bounds at a concrete directory and search. -/
theorem C7_witness :
    (findAlternatives [dirParis] dirParis { priceRange := none, limit := none }).length ≤
      jsOrNat (AltCriteria.limit { priceRange := none, limit := none }) 5 ∧
    getAlternativeHotels envC7 pParis argsC7 =
      Except.ok (alternativesFrom [hAlt5] argsC7) ∧
    (alternativesFrom [hAlt5] argsC7).length ≤ argsC7.limit.getD 5 := by
  have main := C7_alternatives_bounds [dirParis] dirParis
    { priceRange := none, limit := none } envC7 pParis argsC7
    { hotels := [hAlt5], total := 1, source := Source.cache } (by decide)
  exact ⟨main.2.1, main.2.2.2.1, main.2.2.2.2.2⟩

/-! ## C8 -/

/-- A search result named "The Grand Hotel Paris". -/
def ghParis : FormattedHotel := { fhEmpty with name := some "The Grand Hotel Paris" }

/-- C8: the matching core of `searchHotelByName` classifies a name as found
with confidence 1.0 when some result's name equals it case-insensitively;
otherwise as found with confidence 0.8 when some lower-cased name contains the
other; otherwise as not found with confidence 0.  The three cases are
exhaustive and mutually exclusive, so each outcome occurs *exactly* in its
case.  In particular "Grand Hotel Paris" against a result named
"The Grand Hotel Paris" is found with confidence 0.8, not 1.0. -/
theorem C8_name_match_classification (hotels : List FormattedHotel) (hotelName : String) :
    ((∃ h ∈ hotels, jsToLower (fhName h) = jsToLower hotelName) →
      (hotelNameMatch hotels hotelName).found = true ∧
      (hotelNameMatch hotels hotelName).confidence = 1) ∧
    ((∀ h ∈ hotels, jsToLower (fhName h) ≠ jsToLower hotelName) →
      (∃ h ∈ hotels,
        jsIncludes (jsToLower (fhName h)) (jsToLower hotelName) = true ∨
        jsIncludes (jsToLower hotelName) (jsToLower (fhName h)) = true) →
      (hotelNameMatch hotels hotelName).found = true ∧
      (hotelNameMatch hotels hotelName).confidence = 4/5) ∧
    ((∀ h ∈ hotels, jsToLower (fhName h) ≠ jsToLower hotelName) →
      (∀ h ∈ hotels,
        ¬(jsIncludes (jsToLower (fhName h)) (jsToLower hotelName) = true ∨
          jsIncludes (jsToLower hotelName) (jsToLower (fhName h)) = true)) →
      hotelNameMatch hotels hotelName =
        { found := false, hotel := none, confidence := 0 }) ∧
    hotelNameMatch [ghParis] ("Grand Hotel Paris") =
      { found := true, hotel := some ghParis, confidence := 4/5 } := by
  refine ⟨?_, ?_, ?_, by decide⟩
  · intro hex
    have hsome : (hotels.find? fun h =>
        decide (jsToLower (fhName h) = jsToLower hotelName)).isSome := by
      rw [List.find?_isSome]
      obtain ⟨h, hm, he⟩ := hex
      exact ⟨h, hm, decide_eq_true he⟩
    obtain ⟨h, hfind⟩ := Option.isSome_iff_exists.mp hsome
    unfold hotelNameMatch
    rw [hfind]
    exact ⟨rfl, rfl⟩
  · intro hnoex hpart
    have hnone : (hotels.find? fun h =>
        decide (jsToLower (fhName h) = jsToLower hotelName)) = none := by
      rw [List.find?_eq_none]
      intro x hx
      simp only [decide_eq_true_eq]
      exact hnoex x hx
    have hsome2 : (hotels.find? fun h =>
        jsIncludes (jsToLower (fhName h)) (jsToLower hotelName) ||
        jsIncludes (jsToLower hotelName) (jsToLower (fhName h))).isSome := by
      rw [List.find?_isSome]
      obtain ⟨h, hm, hor⟩ := hpart
      refine ⟨h, hm, ?_⟩
      rcases hor with h1 | h1 <;> simp [h1]
    obtain ⟨h, hfind2⟩ := Option.isSome_iff_exists.mp hsome2
    unfold hotelNameMatch
    rw [hnone, hfind2]
    exact ⟨rfl, rfl⟩
  · intro hnoex hnopart
    have hnone : (hotels.find? fun h =>
        decide (jsToLower (fhName h) = jsToLower hotelName)) = none := by
      rw [List.find?_eq_none]
      intro x hx
      simp only [decide_eq_true_eq]
      exact hnoex x hx
    have hnone2 : (hotels.find? fun h =>
        jsIncludes (jsToLower (fhName h)) (jsToLower hotelName) ||
        jsIncludes (jsToLower hotelName) (jsToLower (fhName h))) = none := by
      rw [List.find?_eq_none]
      intro x hx
      simp only [Bool.or_eq_true]
      exact hnopart x hx
    unfold hotelNameMatch
    rw [hnone, hnone2]

/-- C8 witness: all three classifications at concrete inputs. -/
theorem C8_witness :
    ((hotelNameMatch [ghParis] ("The GRAND Hotel Paris")).found = true ∧
      (hotelNameMatch [ghParis] ("The GRAND Hotel Paris")).confidence = 1) ∧
    (hotelNameMatch [ghParis] ("Grand Hotel Paris")).confidence = 4/5 ∧
    hotelNameMatch [ghParis] ("Atlantis") =
      { found := false, hotel := none, confidence := 0 } := by
  have t1 := (C8_name_match_classification [ghParis] ("The GRAND Hotel Paris")).1
    ⟨ghParis, by decide, by decide⟩
  have t2 := (C8_name_match_classification [ghParis] ("Grand Hotel Paris")).2.1
    (by decide) ⟨ghParis, by decide, by decide⟩
  have t3 := (C8_name_match_classification [ghParis] ("Atlantis")).2.2.1
    (by decide) (by decide)
  exact ⟨t1, t2.2, t3⟩

/-! ## C9 -/

/-- JS `a || b` keeps a truthy first operand. -/
theorem orNum_truthy {a b : Option ℚ} (ha : optTruthyQ a = true) : orNum a b = a := by
  cases a with
  | none => simp [optTruthyQ] at ha
  | some x =>
    simp only [optTruthyQ, decide_eq_true_eq] at ha
    show (if x = 0 then b else some x) = some x
    rw [if_neg ha]

/-- JS `a || b` falls through on a falsy first operand. -/
theorem orNum_falsy {a b : Option ℚ} (ha : optTruthyQ a = false) : orNum a b = b := by
  cases a with
  | none => rfl
  | some x =>
    simp only [optTruthyQ, decide_eq_false_iff_not, not_not] at ha
    show (if x = 0 then b else some x) = b
    rw [if_pos ha]

/-- String version of `orNum_truthy`. -/
theorem orStr_truthy {a b : Option String} (ha : optTruthyStr a = true) : orStr a b = a := by
  cases a with
  | none => simp [optTruthyStr] at ha
  | some s =>
    simp only [optTruthyStr, decide_eq_true_eq] at ha
    show (if s = "" then b else some s) = some s
    rw [if_neg ha]

/-- String version of `orNum_falsy`. -/
theorem orStr_falsy {a b : Option String} (ha : optTruthyStr a = false) : orStr a b = b := by
  cases a with
  | none => rfl
  | some s =>
    simp only [optTruthyStr, decide_eq_false_iff_not, not_not] at ha
    show (if s = "" then b else some s) = b
    rw [if_pos ha]

/-- The spec's coalescing rule, verbatim (for comparison with the source):
take the first *present, non-null* value of the pair. -/
def specCoalesce {α : Type} (a b : Option α) : Option α :=
  match a with
  | some x => some x
  | none => b

/-- An inbound record carrying the (present, non-null) review score 0 next to
a `rating` of 5. -/
def rawScoreZero : RawHotel := { rawEmpty with reviewScore := some 0, rating := some 5 }

/-- C9 counterexample: on a record whose `reviewScore` is present and non-null
but `0`, the spec's first-present-non-null coalescing keeps the 0, while the
source's `||` skips the falsy 0 and takes `rating` instead. -/
theorem C9_counterexample :
    rawScoreZero.reviewScore = some 0 ∧
    specCoalesce rawScoreZero.reviewScore rawScoreZero.rating = some 0 ∧
    (formatHotelResult rawScoreZero).reviewScore = some 5 ∧
    (formatHotelResults [rawScoreZero]).map (fun h => h.reviewScore) = [some 5] := by
  decide

/-- C9 amended: `formatHotelResults` coalesces each heterogeneous field pair
by JS truthiness — the first operand wins exactly when it is present, non-null
*and* not falsy (`0`, `""`); otherwise the second member of the pair is used —
and absent collections (`amenities`, `images`) default to the empty list while
a present (even empty) array is kept. -/
theorem C9_format_field_coalescing (h : RawHotel) :
    (optTruthyStr h.id = true → (formatHotelResult h).id = h.id) ∧
    (optTruthyStr h.id = false → (formatHotelResult h).id = h.hotelId) ∧
    (optTruthyStr h.name = true → (formatHotelResult h).name = h.name) ∧
    (optTruthyStr h.name = false → (formatHotelResult h).name = h.hotelName) ∧
    (optTruthyQ h.starRating = true → (formatHotelResult h).starRating = h.starRating) ∧
    (optTruthyQ h.starRating = false → (formatHotelResult h).starRating = h.category) ∧
    (optTruthyQ h.reviewScore = true → (formatHotelResult h).reviewScore = h.reviewScore) ∧
    (optTruthyQ h.reviewScore = false → (formatHotelResult h).reviewScore = h.rating) ∧
    (optTruthyQ h.reviewCount = true → (formatHotelResult h).reviewCount = h.reviewCount) ∧
    (optTruthyQ h.reviewCount = false →
      (formatHotelResult h).reviewCount = h.numberOfReviews) ∧
    (optTruthyQ (rawPriceTotal h) = true →
      (formatHotelResult h).priceAmount = rawPriceTotal h) ∧
    (optTruthyQ (rawPriceTotal h) = false →
      (formatHotelResult h).priceAmount = h.totalPrice) ∧
    (h.amenities = none → h.facilities = none → (formatHotelResult h).amenities = []) ∧
    (∀ l, h.amenities = some l → (formatHotelResult h).amenities = l) ∧
    (h.images = none → h.photos = none → (formatHotelResult h).images = []) ∧
    (∀ l, h.images = some l → (formatHotelResult h).images = l) := by
  refine ⟨fun ht => orStr_truthy ht, fun ht => orStr_falsy ht,
    fun ht => orStr_truthy ht, fun ht => orStr_falsy ht,
    fun ht => orNum_truthy ht, fun ht => orNum_falsy ht,
    fun ht => orNum_truthy ht, fun ht => orNum_falsy ht,
    fun ht => orNum_truthy ht, fun ht => orNum_falsy ht,
    fun ht => orNum_truthy ht, fun ht => orNum_falsy ht,
    ?_, ?_, ?_, ?_⟩
  · intro ha hf
    show ((h.amenities).orElse (fun _ => h.facilities)).getD [] = []
    rw [ha, hf]
    rfl
  · intro l ha
    show ((h.amenities).orElse (fun _ => h.facilities)).getD [] = l
    rw [ha]
    rfl
  · intro hi hp
    show ((h.images).orElse (fun _ => h.photos)).getD [] = []
    rw [hi, hp]
    rfl
  · intro l hi
    show ((h.images).orElse (fun _ => h.photos)).getD [] = l
    rw [hi]
    rfl

/-- C9 witness: both coalescing directions and the collection defaults at
concrete records. -/
theorem C9_witness :
    (formatHotelResult rawC3).id = rawC3.id ∧
    (formatHotelResult rawScoreZero).reviewScore = rawScoreZero.rating ∧
    (formatHotelResult rawEmpty).amenities = [] ∧
    (formatHotelResult rawEmpty).images = [] := by
  refine ⟨(C9_format_field_coalescing rawC3).1 (by decide),
    ?_, ?_, ?_⟩
  · exact (C9_format_field_coalescing rawScoreZero).2.2.2.2.2.2.2.1 (by decide)
  · exact (C9_format_field_coalescing rawEmpty).2.2.2.2.2.2.2.2.2.2.2.2.1 rfl rfl
  · exact (C9_format_field_coalescing rawEmpty).2.2.2.2.2.2.2.2.2.2.2.2.2.2.1 rfl rfl

/-! ## C10 -/

/-- C10: `searchHotelsFromDatabase` is total — any directory query failure
yields the empty result rather than an exception — so when the external call
and the directory query both fail, `searchHotels` surfaces exactly the generic
inventory-unavailable error, never a database error. -/
theorem C10_database_fallback_never_throws (env : SearchEnv) (p : SearchParams)
    (e msg : String) (hc : env.cacheLookup = Except.ok none)
    (ha : env.apiOutcome = Except.error e) (hd : env.dbFailure = some msg) :
    (∀ loc, searchHotelsFromDatabase env loc = { hotels := [], total := 0 }) ∧
    searchHotels env p = Except.error ("Failed to search hotels via TSS API") := by
  have hdb : ∀ loc, searchHotelsFromDatabase env loc = { hotels := [], total := 0 } := by
    intro loc
    unfold searchHotelsFromDatabase
    rw [hd]
  refine ⟨hdb, ?_⟩
  unfold searchHotels searchHotelsTry
  rw [hc, ha]
  simp [hdb]

/-- C10 witness: a failing directory next to a failing external call. -/
theorem C10_witness :
    searchHotelsFromDatabase { envC1 with dbFailure := some ("db down") } pParis.location =
      { hotels := [], total := 0 } ∧
    searchHotels { envC1 with dbFailure := some ("db down") } pParis =
      Except.error ("Failed to search hotels via TSS API") := by
  have main := C10_database_fallback_never_throws
    { envC1 with dbFailure := some ("db down") } pParis ("boom") ("db down") rfl rfl rfl
  exact ⟨main.1 pParis.location, main.2⟩

end TravelHotel
